import Mathlib

/-!
Shallow embedding of `src/05-objects-tasks.js` (CSS selector builder and
JSON helpers) and verification of its specification claims.

The JavaScript `Selector` class stores an array `this.selector` of
fragments `{ type, value }`; the `type` strings pushed by its methods and
by the `cssSelectorBuilder` facade range over exactly six values, embedded
here as the inductive `FragType`.  Selector state is the fragment list;
each method is a function from state to (state, optional raised error),
where a thrown error aborts the method before the push.
-/

/-- The six fragment type tags pushed by the source's methods:
`element`, `id`, `class`, `attr`, `pseudo-class`, `pseudo-element`. -/
inductive FragType
  | element
  | id
  | «class»
  | attr
  | pseudoClass
  | pseudoElement
deriving DecidableEq

/-- The JS string stored in a fragment's `type` field for each tag. -/
def FragType.typeName : FragType → String
  | .element => "element"
  | .id => "id"
  | .«class» => "class"
  | .attr => "attr"
  | .pseudoClass => "pseudo-class"
  | .pseudoElement => "pseudo-element"

/-- A selector fragment `{ type, value }` as pushed onto `this.selector`. -/
structure Fragment where
  type : FragType
  value : String
deriving DecidableEq

/-- The `correctOrder` array of `Selector.validate` (line 188). -/
def correctOrder : List String :=
  ["element", "id", "class", "attr", "pseudo-class", "pseudo-element"]

/-- `correctOrder.indexOf(type)`: the rank of a fragment type. -/
def rank (t : FragType) : Nat := correctOrder.indexOf t.typeName

/-- Errors the embedded JS code can raise.  The two `throw new Error(...)`
sites of `Selector.validate` give the first two; `typeErrorUndefined`
models the TypeError JS raises when `validate` reads
`this.selector[this.selector.length - 1].type` on an empty array. -/
inductive JsError
  | duplicateSelectorPart
  | selectorOrder
  | typeErrorUndefined
deriving DecidableEq

/-- `Selector.validate(type)`: first the uniqueness check
(`find` over the whole array for element/id/pseudo-element), then the
order check comparing `correctOrder.indexOf(type)` against the rank of the
last stored fragment.  Returns the raised error, if any. -/
def Selector.validate (s : List Fragment) (t : FragType) : Option JsError :=
  if (t = FragType.element ∨ t = FragType.id ∨ t = FragType.pseudoElement)
      ∧ (∃ el ∈ s, el.type = t) then
    some .duplicateSelectorPart
  else
    match s.getLast? with
    | none => some .typeErrorUndefined
    | some last => if rank t < rank last.type then some .selectorOrder else none

/-- The shared body of the six append methods: `this.validate(type)` then
`this.selector.push({ type, value })`.  A raised error aborts before the
push, so on failure the returned state is the input state. -/
def Selector.append (s : List Fragment) (t : FragType) (value : String) :
    List Fragment × Option JsError :=
  match Selector.validate s t with
  | some e => (s, some e)
  | none => (s ++ [⟨t, value⟩], none)

def Selector.element (s : List Fragment) (value : String) :
    List Fragment × Option JsError :=
  Selector.append s .element value

def Selector.id (s : List Fragment) (value : String) :
    List Fragment × Option JsError :=
  Selector.append s .id value

def Selector.«class» (s : List Fragment) (value : String) :
    List Fragment × Option JsError :=
  Selector.append s .«class» value

def Selector.attr (s : List Fragment) (value : String) :
    List Fragment × Option JsError :=
  Selector.append s .attr value

def Selector.pseudoClass (s : List Fragment) (value : String) :
    List Fragment × Option JsError :=
  Selector.append s .pseudoClass value

def Selector.pseudoElement (s : List Fragment) (value : String) :
    List Fragment × Option JsError :=
  Selector.append s .pseudoElement value

/-- `Selector.stringify()`: a `reduce` over the fragment array starting
from the empty string, appending each fragment's punctuated text per the
source's `switch`. -/
def Selector.stringify (s : List Fragment) : String :=
  s.foldl (fun acc el =>
    match el.type with
    | .element => acc ++ el.value
    | .id => acc ++ "#" ++ el.value
    | .«class» => acc ++ "." ++ el.value
    | .attr => acc ++ "[" ++ el.value ++ "]"
    | .pseudoClass => acc ++ ":" ++ el.value
    | .pseudoElement => acc ++ "::" ++ el.value) ""

/-- The facade entry `cssSelectorBuilder.element`: `new Selector(seed)`
stores `[seed]`. -/
def cssSelectorBuilder.element (value : String) : List Fragment :=
  [⟨.element, value⟩]

def cssSelectorBuilder.id (value : String) : List Fragment :=
  [⟨.id, value⟩]

def cssSelectorBuilder.«class» (value : String) : List Fragment :=
  [⟨.«class», value⟩]

def cssSelectorBuilder.attr (value : String) : List Fragment :=
  [⟨.attr, value⟩]

def cssSelectorBuilder.pseudoClass (value : String) : List Fragment :=
  [⟨.pseudoClass, value⟩]

def cssSelectorBuilder.pseudoElement (value : String) : List Fragment :=
  [⟨.pseudoElement, value⟩]

/-- The property names of the `cssSelectorBuilder` object literal
(lines 196-231), in source order. -/
def cssSelectorBuilderKeys : List String :=
  ["element", "id", "class", "attr", "pseudoClass", "pseudoElement", "combine"]

/-- A selector-like value: a `Selector` (its fragment list) or the node
returned by `cssSelectorBuilder.combine`, holding `sel1`, `combinator`,
`sel2`. -/
inductive SelectorLike
  | sel (fragments : List Fragment)
  | comb (sel1 : SelectorLike) (combinator : String) (sel2 : SelectorLike)

/-- `stringify` on a selector-like value: a combined node renders
`sel1.stringify() + " " + combinator + " " + sel2.stringify()`. -/
def SelectorLike.stringify : SelectorLike → String
  | .sel s => Selector.stringify s
  | .comb a g b => a.stringify ++ " " ++ g ++ " " ++ b.stringify

/-- `cssSelectorBuilder.combine(sel1, combinator, sel2)`: returns the
combined node; it performs no validation and raises nothing. -/
def cssSelectorBuilder.combine (sel1 : SelectorLike) (combinator : String)
    (sel2 : SelectorLike) : SelectorLike :=
  .comb sel1 combinator sel2

/-- Selector states reachable through the public facade: one facade entry
point (which seeds the array with exactly one fragment of one of the six
types) followed by any sequence of append calls that did not raise. -/
inductive Reachable : List Fragment → Prop
  | seed (t : FragType) (v : String) : Reachable [⟨t, v⟩]
  | step {s s' : List Fragment} (t : FragType) (v : String) :
      Reachable s → Selector.append s t v = (s', none) → Reachable s'

/-- Modelled from the spec: the punctuated text of one fragment — element
gives the bare text, id gives `#text`, class gives `.text`, attribute
gives `[text]`, pseudo-class gives `:text`, pseudo-element gives
`::text`. -/
def fragmentText (f : Fragment) : String :=
  match f.type with
  | .element => f.value
  | .id => "#" ++ f.value
  | .«class» => "." ++ f.value
  | .attr => "[" ++ f.value ++ "]"
  | .pseudoClass => ":" ++ f.value
  | .pseudoElement => "::" ++ f.value

/-- Modelled from the spec: the concatenation, in stored order and with no
separator, of each fragment's punctuated text. -/
def punctuatedConcat : List Fragment → String
  | [] => ""
  | f :: fs => fragmentText f ++ punctuatedConcat fs

/-- Heap-aware view of selector-like values, used to reason about the JS
aliasing semantics: `combine` stores object references, and `Selector`
methods mutate the referenced object in place.  A store maps reference
ids to selector states; a `ref` leaf names a live `Selector` object. -/
inductive SelRef
  | ref (i : Nat)
  | comb (sel1 : SelRef) (combinator : String) (sel2 : SelRef)

/-- `stringify` of a combined node under a store: leaves re-read the
referenced selector's current state on every call. -/
def SelRef.stringifyIn : SelRef → (Nat → List Fragment) → String
  | .ref i, σ => Selector.stringify (σ i)
  | .comb a g b, σ => a.stringifyIn σ ++ " " ++ g ++ " " ++ b.stringifyIn σ

/-- The distinct error kind of the serialize/materialize utilities: the
parse failure raised by the JSON parser on malformed input text. -/
inductive MalformedInputError
  | parseFailure (message : String)

/-- `fromJSON(proto, json)`: `JSON.parse(json)` then
`Object.create(proto, descriptors-of-obj)`.  `JSON.parse` is a platform
builtin, not code under `src/`; it is abstracted as the already-computed
parse outcome `parsed`, and `Object.create` with the parsed object's
property descriptors as the abstract constructor `create`.  The body
sequences the two with no error handling, so a parse failure propagates. -/
def fromJSON {α β γ : Type} (proto : α)
    (parsed : Except MalformedInputError β) (create : α → β → γ) :
    Except MalformedInputError γ :=
  match parsed with
  | .error e => .error e
  | .ok obj => .ok (create proto obj)

/-! ### Helper lemmas -/

theorem append_snd (s : List Fragment) (t : FragType) (v : String) :
    (Selector.append s t v).2 = Selector.validate s t := by
  unfold Selector.append
  cases Selector.validate s t <;> rfl

theorem append_of_validate_some (s : List Fragment) (t : FragType) (v : String)
    (e : JsError) (h : Selector.validate s t = some e) :
    Selector.append s t v = (s, some e) := by
  unfold Selector.append
  rw [h]

theorem append_success (s : List Fragment) (t : FragType) (v : String)
    (s' : List Fragment) (h : Selector.append s t v = (s', none)) :
    Selector.validate s t = none ∧ s' = s ++ [⟨t, v⟩] := by
  unfold Selector.append at h
  cases hv : Selector.validate s t with
  | some e => rw [hv] at h; simp at h
  | none =>
      rw [hv] at h
      exact ⟨rfl, (congrArg Prod.fst h).symm⟩

theorem validate_eq_none_iff (s : List Fragment) (t : FragType) :
    Selector.validate s t = none ↔
      ¬ ((t = FragType.element ∨ t = FragType.id ∨ t = FragType.pseudoElement)
          ∧ (∃ el ∈ s, el.type = t))
      ∧ ∃ last, s.getLast? = some last ∧ rank last.type ≤ rank t := by
  unfold Selector.validate
  by_cases hdup : (t = FragType.element ∨ t = FragType.id ∨ t = FragType.pseudoElement)
      ∧ (∃ el ∈ s, el.type = t)
  · rw [if_pos hdup]
    simp [hdup]
  · rw [if_neg hdup]
    cases hl : s.getLast? with
    | none => simp [hdup]
    | some last =>
        dsimp only
        by_cases hlt : rank t < rank last.type
        · rw [if_pos hlt]
          simp only [hdup, not_false_iff, true_and]
          constructor
          · intro h; simp at h
          · rintro ⟨last', hlast', hle⟩
            injection hlast' with h
            subst h
            exfalso
            omega
        · rw [if_neg hlt]
          simp only [hdup, not_false_iff, true_and, true_iff]
          exact ⟨last, rfl, by omega⟩

theorem stringify_append_one (s : List Fragment) (f : Fragment) :
    Selector.stringify (s ++ [f]) = Selector.stringify s ++ fragmentText f := by
  unfold Selector.stringify
  rw [List.foldl_append]
  rcases f with ⟨t, v⟩
  cases t <;> simp [fragmentText, String.append_assoc]

theorem punctuatedConcat_append (s₁ s₂ : List Fragment) :
    punctuatedConcat (s₁ ++ s₂) = punctuatedConcat s₁ ++ punctuatedConcat s₂ := by
  induction s₁ with
  | nil => simp [punctuatedConcat, String.empty_append]
  | cons f fs ih => simp [punctuatedConcat, ih, String.append_assoc]

theorem stringify_eq_punctuatedConcat (s : List Fragment) :
    Selector.stringify s = punctuatedConcat s := by
  induction s using List.reverseRecOn with
  | nil => rfl
  | append_singleton s f ih =>
      rw [stringify_append_one, ih, punctuatedConcat_append]
      simp [punctuatedConcat, String.append_empty]

theorem rank_eq_zero_imp (t : FragType) (h : rank t = 0) : t = FragType.element := by
  cases t <;> revert h <;> decide

theorem fragmentText_length_pos (f : Fragment) (h : f.type ≠ FragType.element) :
    0 < (fragmentText f).length := by
  rcases f with ⟨t, v⟩
  cases t with
  | element => exact absurd rfl h
  | id =>
      show 0 < (("#" : String) ++ v).length
      rw [String.length_append]
      have h1 : ("#" : String).length = 1 := by decide
      omega
  | «class» =>
      show 0 < (("." : String) ++ v).length
      rw [String.length_append]
      have h1 : ("." : String).length = 1 := by decide
      omega
  | attr =>
      show 0 < (("[" : String) ++ v ++ ("]" : String)).length
      rw [String.length_append, String.length_append]
      have h1 : ("[" : String).length = 1 := by decide
      omega
  | pseudoClass =>
      show 0 < ((":" : String) ++ v).length
      rw [String.length_append]
      have h1 : (":" : String).length = 1 := by decide
      omega
  | pseudoElement =>
      show 0 < (("::" : String) ++ v).length
      rw [String.length_append]
      have h1 : ("::" : String).length = 2 := by decide
      omega

theorem append_success_type_ne_element (s : List Fragment) (t : FragType)
    (v : String) (s' : List Fragment) (h : Selector.append s t v = (s', none)) :
    t ≠ FragType.element := by
  intro ht
  subst ht
  obtain ⟨hv, -⟩ := append_success _ _ _ _ h
  rw [validate_eq_none_iff] at hv
  obtain ⟨hdup, last, hlast, hle⟩ := hv
  have h0 : rank last.type = 0 := by
    have he : rank FragType.element = 0 := by decide
    omega
  have hel : last.type = FragType.element := rank_eq_zero_imp _ h0
  exact hdup ⟨Or.inl rfl, last, List.mem_of_mem_getLast? hlast, hel⟩

theorem stringifyIn_update_length_le (σ : Nat → List Fragment) (i : Nat)
    (f : Fragment) (n : SelRef) :
    (n.stringifyIn σ).length
      ≤ (n.stringifyIn (Function.update σ i (σ i ++ [f]))).length := by
  induction n with
  | ref j =>
      by_cases hj : j = i
      · subst hj
        simp only [SelRef.stringifyIn, Function.update_same, stringify_append_one,
          String.length_append]
        omega
      · simp [SelRef.stringifyIn, Function.update_noteq hj]
  | comb a g b iha ihb =>
      simp only [SelRef.stringifyIn, String.length_append]
      omega

/-! ### Claim theorems -/

/-- C2: For every Selector, `stringify()` returns the concatenation, in
stored (call) order with no separator, of each fragment's punctuated text
(element bare, id `#`, class `.`, attribute `[...]`, pseudo-class `:`,
pseudo-element `::`); in particular
`id('main').class('container').class('editable').stringify()` raises
nothing and returns `#main.container.editable`. -/
theorem stringify_concatenates_punctuated_fragments :
    (∀ s : List Fragment, Selector.stringify s = punctuatedConcat s)
    ∧ (Selector.«class» (cssSelectorBuilder.id "main") "container").2 = none
    ∧ (Selector.«class»
        ((Selector.«class» (cssSelectorBuilder.id "main") "container").1)
        "editable").2 = none
    ∧ Selector.stringify
        ((Selector.«class»
          ((Selector.«class» (cssSelectorBuilder.id "main") "container").1)
          "editable").1) = "#main.container.editable" :=
  ⟨stringify_eq_punctuatedConcat, by decide, by decide, by decide⟩

/-- C3: Appending a fragment of kind element, id, or pseudo-element to a
Selector that already contains a fragment of that same kind raises
`duplicateSelectorPart`, leaving the state unchanged, no matter which
other fragments lie in between. -/
theorem duplicate_special_kind_raises (s : List Fragment) (t : FragType)
    (v : String)
    (hspecial : t = FragType.element ∨ t = FragType.id ∨ t = FragType.pseudoElement)
    (hdup : ∃ el ∈ s, el.type = t) :
    Selector.append s t v = (s, some JsError.duplicateSelectorPart) := by
  have hv : Selector.validate s t = some .duplicateSelectorPart := by
    unfold Selector.validate
    rw [if_pos ⟨hspecial, hdup⟩]
  exact append_of_validate_some _ _ _ _ hv

/-- C3 witness: appending `id('b')` after `id('a')` raises the duplicate
error. -/
theorem duplicate_special_kind_raises_witness :
    Selector.append [⟨FragType.id, "a"⟩] FragType.id "b"
      = ([⟨FragType.id, "a"⟩], some JsError.duplicateSelectorPart) :=
  duplicate_special_kind_raises _ _ _ (Or.inr (Or.inl rfl)) (by decide)

/-- C5: `combine` accepts any two selector-like values and any glyph
string, raises nothing (it is a total function), and the combined node's
`stringify` is `A.stringify ++ " " ++ g ++ " " ++ B.stringify`; in
particular with glyph `+` it is `A.stringify ++ " + " ++ B.stringify`. -/
theorem combine_stringify_spec :
    (∀ (A : SelectorLike) (g : String) (B : SelectorLike),
      (cssSelectorBuilder.combine A g B).stringify
        = A.stringify ++ " " ++ g ++ " " ++ B.stringify)
    ∧ ∀ A B : SelectorLike,
      (cssSelectorBuilder.combine A "+" B).stringify
        = A.stringify ++ " + " ++ B.stringify := by
  refine ⟨fun A g B => rfl, fun A B => ?_⟩
  have hg : ((" " : String) ++ "+" ++ " ") = " + " := by decide
  show A.stringify ++ " " ++ "+" ++ " " ++ B.stringify
      = A.stringify ++ " + " ++ B.stringify
  rw [String.append_assoc (A.stringify) " " "+",
    String.append_assoc (A.stringify) (" " ++ "+") " ", hg]

/-- C6: When an append fails (its second component reports an error), the
selector state is unchanged: the returned fragment list is exactly the
input list and its `stringify` is the same string as before. -/
theorem failed_append_leaves_state_unchanged (s : List Fragment)
    (t : FragType) (v : String) (e : JsError)
    (h : (Selector.append s t v).2 = some e) :
    (Selector.append s t v).1 = s
    ∧ Selector.stringify (Selector.append s t v).1 = Selector.stringify s := by
  unfold Selector.append at h ⊢
  cases hv : Selector.validate s t with
  | some e' => exact ⟨rfl, rfl⟩
  | none => rw [hv] at h; simp at h

/-- C6 witness: the rejected `element('div')` after `attr(...)` (an order
violation) leaves the stored fragments and rendering untouched. -/
theorem failed_append_leaves_state_unchanged_witness :
    (Selector.append [⟨FragType.attr, "x"⟩] FragType.element "div").1
        = [⟨FragType.attr, "x"⟩]
    ∧ Selector.stringify
        (Selector.append [⟨FragType.attr, "x"⟩] FragType.element "div").1
      = Selector.stringify [⟨FragType.attr, "x"⟩] :=
  failed_append_leaves_state_unchanged _ _ _ JsError.selectorOrder (by decide)

/-- C7 counterexample: the facade object has no property named
`attribute`; its seven keys are element, id, class, attr, pseudoClass,
pseudoElement, combine. -/
theorem facade_has_no_attribute_key :
    "attribute" ∉ cssSelectorBuilderKeys := by decide

/-- C7 (amended): the facade exposes exactly the seven operations element,
id, class, attr, pseudoClass, pseudoElement, combine; `attr(text)` returns
a Selector seeded with one attr fragment, and
`element('a').attr('href$=".png"').pseudoClass('focus').stringify()`
raises nothing and returns `a[href$=".png"]:focus`. -/
theorem facade_keys_and_attr_scenario :
    cssSelectorBuilderKeys
      = ["element", "id", "class", "attr", "pseudoClass", "pseudoElement",
          "combine"]
    ∧ "attr" ∈ cssSelectorBuilderKeys
    ∧ cssSelectorBuilder.attr "href" = [⟨FragType.attr, "href"⟩]
    ∧ (Selector.attr (cssSelectorBuilder.element "a") "href$=\".png\"").2 = none
    ∧ (Selector.pseudoClass
        ((Selector.attr (cssSelectorBuilder.element "a") "href$=\".png\"").1)
        "focus").2 = none
    ∧ Selector.stringify
        ((Selector.pseudoClass
          ((Selector.attr (cssSelectorBuilder.element "a") "href$=\".png\"").1)
          "focus").1) = "a[href$=\".png\"]:focus" := by
  refine ⟨rfl, by decide, rfl, by decide, by decide, by decide⟩

/-- C8: when the parse of the input text fails, `fromJSON` propagates the
parse failure unchanged as its result, for every prototype and every
object constructor — so no object is constructed. -/
theorem fromJSON_propagates_parse_error {α β γ : Type} (proto : α)
    (create : α → β → γ) (e : MalformedInputError)
    (parsed : Except MalformedInputError β) (h : parsed = .error e) :
    fromJSON proto parsed create = .error e := by
  subst h
  rfl

/-- C8 witness: a concrete failed parse propagates through `fromJSON`. -/
theorem fromJSON_propagates_parse_error_witness :
    fromJSON ()
        (Except.error (MalformedInputError.parseFailure "unexpected token")
          : Except MalformedInputError Unit)
        (fun _ _ => (0 : Nat))
      = Except.error (MalformedInputError.parseFailure "unexpected token") :=
  fromJSON_propagates_parse_error () _ _ _ rfl

theorem countP_append_special (s : List Fragment) (t k : FragType) (v : String)
    (hk : k = FragType.element ∨ k = FragType.id ∨ k = FragType.pseudoElement)
    (hdup : ¬ ((t = FragType.element ∨ t = FragType.id ∨ t = FragType.pseudoElement)
        ∧ (∃ el ∈ s, el.type = t)))
    (hc : s.countP (fun f => decide (f.type = k)) ≤ 1) :
    (s ++ [(⟨t, v⟩ : Fragment)]).countP (fun f => decide (f.type = k)) ≤ 1 := by
  rw [List.countP_append]
  by_cases ht : t = k
  · subst ht
    have hzero : s.countP (fun f => decide (f.type = t)) = 0 := by
      rw [List.countP_eq_zero]
      intro a ha
      simp only [decide_eq_true_eq]
      intro hat
      exact hdup ⟨hk, a, ha, hat⟩
    have hone : ([⟨t, v⟩] : List Fragment).countP
        (fun f => decide (f.type = t)) ≤ 1 := by
      simp [List.countP_cons]
    omega
  · have hzero : ([⟨t, v⟩] : List Fragment).countP
        (fun f => decide (f.type = k)) = 0 := by
      simp [List.countP_eq_zero, ht]
    omega

/-- C1: every Selector reachable through the public facade (one entry
point, then any sequence of non-raising appends) satisfies the
invariants: at most one fragment each of kind element, id and
pseudo-element, and fragment ranks non-decreasing in stored order. -/
theorem facade_reachable_selector_invariants (s : List Fragment)
    (h : Reachable s) :
    s.countP (fun f => decide (f.type = FragType.element)) ≤ 1
    ∧ s.countP (fun f => decide (f.type = FragType.id)) ≤ 1
    ∧ s.countP (fun f => decide (f.type = FragType.pseudoElement)) ≤ 1
    ∧ List.Chain' (· ≤ ·) (s.map fun f => rank f.type) := by
  induction h with
  | seed t v =>
      refine ⟨?_, ?_, ?_, ?_⟩ <;>
        simp [List.countP_cons, List.chain'_singleton] <;>
        (try (split <;> simp))
  | step t v hr happ ih =>
      obtain ⟨hc1, hc2, hc3, hch⟩ := ih
      obtain ⟨hval, hs'⟩ := append_success _ _ _ _ happ
      subst hs'
      rw [validate_eq_none_iff] at hval
      obtain ⟨hdup, last, hlast, hle⟩ := hval
      refine ⟨countP_append_special _ _ _ _ (Or.inl rfl) hdup hc1,
        countP_append_special _ _ _ _ (Or.inr (Or.inl rfl)) hdup hc2,
        countP_append_special _ _ _ _ (Or.inr (Or.inr rfl)) hdup hc3, ?_⟩
      rw [List.map_append]
      refine List.chain'_append.2 ⟨hch, List.chain'_singleton _, ?_⟩
      intro x hx y hy
      simp only [List.map_cons, List.map_nil, List.head?_cons, Option.mem_def,
        Option.some.injEq] at hy
      rw [List.getLast?_map, hlast] at hx
      simp only [Option.map_some', Option.mem_def, Option.some.injEq] at hx
      subst hx
      subst hy
      exact hle

/-- C1 witness: the reachable selector built by `id('a').class('b')`
satisfies all four invariants. -/
theorem facade_reachable_selector_invariants_witness :
    ([⟨FragType.id, "a"⟩, ⟨FragType.«class», "b"⟩] : List Fragment).countP
        (fun f => decide (f.type = FragType.element)) ≤ 1
    ∧ ([⟨FragType.id, "a"⟩, ⟨FragType.«class», "b"⟩] : List Fragment).countP
        (fun f => decide (f.type = FragType.id)) ≤ 1
    ∧ ([⟨FragType.id, "a"⟩, ⟨FragType.«class», "b"⟩] : List Fragment).countP
        (fun f => decide (f.type = FragType.pseudoElement)) ≤ 1
    ∧ List.Chain' (· ≤ ·)
        (([⟨FragType.id, "a"⟩, ⟨FragType.«class», "b"⟩] : List Fragment).map
          fun f => rank f.type) :=
  facade_reachable_selector_invariants _
    (Reachable.step FragType.«class» "b" (Reachable.seed FragType.id "a")
      (by decide))

/-- C4 counterexample: on the reachable selector `id('a').class('b')`,
appending `id('c')` has strictly lower rank than the last stored fragment,
yet the raised error is `duplicateSelectorPart`, not `selectorOrder` —
the uniqueness check fires first, refuting the claimed "exactly when". -/
theorem order_error_iff_lower_rank_cex :
    rank FragType.id < rank FragType.«class»
    ∧ ([⟨FragType.id, "a"⟩, ⟨FragType.«class», "b"⟩] : List Fragment).getLast?
        = some ⟨FragType.«class», "b"⟩
    ∧ (Selector.append [⟨FragType.id, "a"⟩, ⟨FragType.«class», "b"⟩]
        FragType.id "c").2 ≠ some JsError.selectorOrder
    ∧ (Selector.append [⟨FragType.id, "a"⟩, ⟨FragType.«class», "b"⟩]
        FragType.id "c").2 = some JsError.duplicateSelectorPart := by decide

/-- C4 (amended): an append to a non-empty Selector raises
`selectorOrder` exactly when the appended kind's rank is strictly below
the last stored fragment's rank AND the uniqueness check does not fire
first (the appended kind is not an element/id/pseudo-element already
present); in particular an append of equal or higher rank never raises
`selectorOrder`. -/
theorem order_error_iff_lower_rank_and_no_duplicate (s : List Fragment)
    (t : FragType) (v : String) (last : Fragment)
    (hlast : s.getLast? = some last) :
    (Selector.append s t v).2 = some JsError.selectorOrder
      ↔ ¬ ((t = FragType.element ∨ t = FragType.id ∨ t = FragType.pseudoElement)
            ∧ (∃ el ∈ s, el.type = t))
        ∧ rank t < rank last.type := by
  rw [append_snd]
  unfold Selector.validate
  by_cases hdup : (t = FragType.element ∨ t = FragType.id ∨ t = FragType.pseudoElement)
      ∧ (∃ el ∈ s, el.type = t)
  · rw [if_pos hdup]
    simp [hdup]
  · rw [if_neg hdup, hlast]
    dsimp only
    by_cases hlt : rank t < rank last.type
    · rw [if_pos hlt]
      simp [hdup, hlt]
    · rw [if_neg hlt]
      simp [hdup, hlt]

/-- C4 witness: appending `class('x')` after `pseudoClass('hover')`
raises `selectorOrder`. -/
theorem order_error_iff_lower_rank_and_no_duplicate_witness :
    (Selector.append [⟨FragType.pseudoClass, "hover"⟩] FragType.«class» "x").2
      = some JsError.selectorOrder :=
  (order_error_iff_lower_rank_and_no_duplicate [⟨FragType.pseudoClass, "hover"⟩]
      FragType.«class» "x" ⟨FragType.pseudoClass, "hover"⟩ (by decide)).mpr
    ⟨by decide, by decide⟩

/-- C9: a combined node holds live references to its children: after a
successful in-place append to the selector referenced by the left child,
the node's `stringify` renders the post-mutation left text (followed by
the glyph and the right child's current rendering), and its value differs
from the rendering before the mutation. -/
theorem combine_holds_live_references (σ : Nat → List Fragment) (i : Nat)
    (g : String) (R : SelRef) (t : FragType) (v : String)
    (fs' : List Fragment) (h : Selector.append (σ i) t v = (fs', none)) :
    (SelRef.comb (SelRef.ref i) g R).stringifyIn (Function.update σ i fs')
        = Selector.stringify fs' ++ " " ++ g
            ++ " " ++ R.stringifyIn (Function.update σ i fs')
    ∧ (SelRef.comb (SelRef.ref i) g R).stringifyIn (Function.update σ i fs')
        ≠ (SelRef.comb (SelRef.ref i) g R).stringifyIn σ := by
  have hne : t ≠ FragType.element := append_success_type_ne_element _ _ _ _ h
  obtain ⟨hval, hfs⟩ := append_success _ _ _ _ h
  subst hfs
  constructor
  · simp [SelRef.stringifyIn, Function.update_same]
  · intro heq
    have hlen := congrArg String.length heq
    simp only [SelRef.stringifyIn, Function.update_same, stringify_append_one,
      String.length_append] at hlen
    have hR := stringifyIn_update_length_le σ i ⟨t, v⟩ R
    have hfpos : 0 < (fragmentText ⟨t, v⟩).length :=
      fragmentText_length_pos _ hne
    omega

/-- C9 witness: after appending `class('x')` to the element selector
referenced by the left child of a `+` combination, the combined rendering
reflects the mutation and differs from the pre-mutation rendering. -/
theorem combine_holds_live_references_witness :
    (SelRef.comb (SelRef.ref 0) "+" (SelRef.ref 1)).stringifyIn
        (Function.update (fun _ => [⟨FragType.element, "a"⟩]) 0
          [⟨FragType.element, "a"⟩, ⟨FragType.«class», "x"⟩])
      = Selector.stringify [⟨FragType.element, "a"⟩, ⟨FragType.«class», "x"⟩]
          ++ " " ++ "+" ++ " "
          ++ (SelRef.ref 1).stringifyIn
            (Function.update (fun _ => [⟨FragType.element, "a"⟩]) 0
              [⟨FragType.element, "a"⟩, ⟨FragType.«class», "x"⟩])
    ∧ (SelRef.comb (SelRef.ref 0) "+" (SelRef.ref 1)).stringifyIn
        (Function.update (fun _ => [⟨FragType.element, "a"⟩]) 0
          [⟨FragType.element, "a"⟩, ⟨FragType.«class», "x"⟩])
      ≠ (SelRef.comb (SelRef.ref 0) "+" (SelRef.ref 1)).stringifyIn
          (fun _ => [⟨FragType.element, "a"⟩]) :=
  combine_holds_live_references (fun _ => [⟨FragType.element, "a"⟩]) 0 "+"
    (SelRef.ref 1) FragType.«class» "x"
    [⟨FragType.element, "a"⟩, ⟨FragType.«class», "x"⟩] (by decide)

/-- C10: every facade-reachable selector is non-empty (the facade seeds
exactly one fragment and a successful append only adds one), so the order
check's unconditional access to the last stored fragment is safe: the
missing-last-element outcome `typeErrorUndefined` is unreachable through
the public interface. -/
theorem reachable_selector_nonempty_safe (s : List Fragment) (t : FragType)
    (h : Reachable s) :
    s ≠ [] ∧ Selector.validate s t ≠ some JsError.typeErrorUndefined := by
  have hne : s ≠ [] := by
    induction h with
    | seed t' v => simp
    | step t' v hr happ ih =>
        obtain ⟨-, hs'⟩ := append_success _ _ _ _ happ
        subst hs'
        simp
  refine ⟨hne, ?_⟩
  unfold Selector.validate
  by_cases hdup : (t = FragType.element ∨ t = FragType.id ∨ t = FragType.pseudoElement)
      ∧ (∃ el ∈ s, el.type = t)
  · rw [if_pos hdup]
    simp
  · rw [if_neg hdup]
    cases hl : s.getLast? with
    | none => exact absurd (List.getLast?_eq_none_iff.mp hl) hne
    | some last =>
        dsimp only
        by_cases hlt : rank t < rank last.type
        · rw [if_pos hlt]; simp
        · rw [if_neg hlt]; simp

/-- C10 witness: the facade-seeded selector `element('main')` is
non-empty and its order-check access is safe. -/
theorem reachable_selector_nonempty_safe_witness :
    ([⟨FragType.element, "main"⟩] : List Fragment) ≠ []
    ∧ Selector.validate [⟨FragType.element, "main"⟩] FragType.«class»
        ≠ some JsError.typeErrorUndefined :=
  reachable_selector_nonempty_safe _ _ (Reachable.seed FragType.element "main")
